import Mathlib

set_option autoImplicit false

/-!
Formal model of the replication-manager core (`src/repmgr.go`).

The `main` function of `repmgr.go` is decomposed into pure phases:
classification of hosts into server monitors, the sibling (multi-master)
check, the two master-locator strategies, the preferred-master validation,
the branch selection after the master is located, and the monitoring loop
(event handling, automatic failure detection, and the exit/restart path).

External collaborators (the `ServerMonitor` methods `newServerMonitor`,
`refresh`, `hasSiblings`, `failover`, `switchover`, and `dbhelper`) are not
part of `src/`; their observable outcomes enter the model as inputs
(`ProbeResult`, `LoopEnv`) or, where a claim needs their behaviour, as a
definition modelled from the spec and marked as such.

Go run-time panics (out-of-range indexing and slicing) are made explicit:
fallible phases return `Except`, with `RunError.fatal` for a `log.Fatal*`
diagnostic and `RunError.panic` for a run-time panic.
-/

namespace Repmgr

/-- Node state constant, from the `const` block of repmgr.go (line 60). -/
def STATE_FAILED : String := "Failed"

/-- Node state constant, from the `const` block of repmgr.go (line 61). -/
def STATE_MASTER : String := "Master"

/-- Node state constant, from the `const` block of repmgr.go (line 62). -/
def STATE_SLAVE : String := "Slave"

/-- Node state constant, from the `const` block of repmgr.go (line 63). -/
def STATE_UNCONN : String := "Unconnected"

/-- Modelled from the spec: the `ServerMonitor` struct is declared outside
`src/`; its readable fields are given by spec section 6 ("host, IP, port,
state, serverId, masterServerId, masterHost, replicationConfigured") and by
the field accesses in repmgr.go (`URL`, `Host`, `IP`, `State`, `ServerId`,
`MasterServerId`, `MasterHost`, `UsingGtid`). -/
structure ServerMonitor where
  URL : String
  Host : String
  IP : String
  Port : String
  State : String
  ServerId : Nat
  MasterServerId : Nat
  MasterHost : String
  UsingGtid : String
deriving DecidableEq, Repr, Inhabited

/-- Modelled from the spec: the observable outcome, for one configured host,
of the external Node Monitor collaborator (`newServerMonitor` followed by
`refresh`, both outside `src/`): whether the connection succeeded (`conn`)
and the replication facts a successful refresh reports. -/
structure ProbeResult where
  url : String
  host : String
  ip : String
  port : String
  conn : Bool
  serverId : Nat
  masterServerId : Nat
  masterHost : String
  usingGtid : String
deriving DecidableEq, Repr

/-- One iteration of the classification loop of repmgr.go (lines 109-138):
on connection failure the node is marked `Failed` and the loop continues
(replication facts are never refreshed, so they keep their zero values); on
success, if `UsingGtid` is non-empty the node is marked `Slave`, otherwise
its state is left at the initial `Unconnected` (modelled from the spec:
"otherwise leave as Unconnected (a promotion candidate)", since
`newServerMonitor` is outside `src/`). -/
def classifyOne (p : ProbeResult) : ServerMonitor :=
  if p.conn = false then
    { URL := p.url, Host := p.host, IP := p.ip, Port := p.port,
      State := STATE_FAILED, ServerId := 0, MasterServerId := 0,
      MasterHost := "", UsingGtid := "" }
  else if p.usingGtid ≠ "" then
    { URL := p.url, Host := p.host, IP := p.ip, Port := p.port,
      State := STATE_SLAVE, ServerId := p.serverId,
      MasterServerId := p.masterServerId, MasterHost := p.masterHost,
      UsingGtid := p.usingGtid }
  else
    { URL := p.url, Host := p.host, IP := p.ip, Port := p.port,
      State := STATE_UNCONN, ServerId := p.serverId,
      MasterServerId := p.masterServerId, MasterHost := p.masterHost,
      UsingGtid := p.usingGtid }

/-- The classification loop of repmgr.go (lines 105-138): builds the
`servers` slice (one entry per host, in host-list order) and the `slaves`
slice (the servers classified `Slave`, appended in host-list order). -/
def classify : List ProbeResult → List ServerMonitor × List ServerMonitor
  | [] => ([], [])
  | p :: rest =>
    let s := classifyOne p
    let (srv, sl) := classify rest
    (s :: srv, if s.State = STATE_SLAVE then s :: sl else sl)

/-- How a run of the core can end abnormally: a controlled `log.Fatal*`
diagnostic, or a Go run-time panic. -/
inductive RunError where
  | fatal (msg : String)
  | panic (msg : String)
deriving DecidableEq, Repr

/-- The multi-master check of repmgr.go (lines 140-145): iterate over the
slaves; the first slave for which `hasSiblings(slaves)` is false aborts the
run with `log.Fatalln`. The `hasSiblings` method is outside `src/`, so it is
a parameter `hs`. -/
def checkSiblings (hs : ServerMonitor → List ServerMonitor → Bool)
    (slaves : List ServerMonitor) : List ServerMonitor → Except RunError Unit
  | [] => .ok ()
  | sl :: rest =>
    if hs sl slaves = false then
      .error (.fatal "ERROR: Multi-master topologies are not yet supported.")
    else
      checkSiblings hs slaves rest

/-- Modelled from the spec: the `hasSiblings` method of `ServerMonitor` is
outside `src/`. Spec section 3: "every Slave node's masterServerId/masterHost
agree with each other (single-master invariant)"; glossary: "Siblinghood: the
property that two slave nodes replicate from the same upstream identity".
A slave has siblings when every slave in the set records the same upstream
server id. -/
def hasSiblings (server : ServerMonitor) (sib : List ServerMonitor) : Bool :=
  sib.all (fun s => s.MasterServerId == server.MasterServerId)

/-- The scan of the switchover / monitor-failover master locator
(repmgr.go lines 152-163): walk `servers` in host-list order; the first
server in `Unconnected` state whose `ServerId` equals `sid` has its state
set to `Master` (the Go code mutates the shared `*ServerMonitor`, so both
the `servers` entry and the `master` reference see the new state); returns
the updated server list together with the designated master, or `none` when
no server matches. -/
def scanUnconn (sid : Nat) : List ServerMonitor → Option (List ServerMonitor × ServerMonitor)
  | [] => none
  | s :: rest =>
    if s.State = STATE_UNCONN ∧ s.ServerId = sid then
      some ({ s with State := STATE_MASTER } :: rest, { s with State := STATE_MASTER })
    else
      match scanUnconn sid rest with
      | none => none
      | some (rest', m) => some (s :: rest', m)

/-- The scan of the forced-failover master locator (repmgr.go lines 167-178):
walk `servers` in host-list order; the first server in `Failed` state whose
`Host` or `IP` equals `smh` has its state set to `Master`. -/
def scanFailed (smh : String) : List ServerMonitor → Option (List ServerMonitor × ServerMonitor)
  | [] => none
  | s :: rest =>
    if s.State = STATE_FAILED ∧ (s.Host = smh ∨ s.IP = smh) then
      some ({ s with State := STATE_MASTER } :: rest, { s with State := STATE_MASTER })
    else
      match scanFailed smh rest with
      | none => none
      | some (rest', m) => some (s :: rest', m)

/-- The switchover / monitor-failover path of the master locator
(repmgr.go lines 149-163 and 180-183): read `slaves[0].MasterServerId`
(a Go index-out-of-range panic when the slave list is empty), scan the
unconnected servers for it, and abort with `log.Fatalln` when no master
was designated. -/
def masterLocatorSwitchover (servers slaves : List ServerMonitor) :
    Except RunError (List ServerMonitor × ServerMonitor) :=
  match slaves with
  | [] => .error (.panic "runtime error: index out of range")
  | sl0 :: _ =>
    match scanUnconn sl0.MasterServerId servers with
    | some r => .ok r
    | none => .error (.fatal "ERROR: Could not autodetect a master!")

/-- The forced-failover path of the master locator (repmgr.go lines 164-179
and 180-183): read `slaves[0].MasterHost` (a Go index-out-of-range panic
when the slave list is empty), scan the failed servers for it, and abort
with `log.Fatalln` when no master was designated. -/
def masterLocatorForce (servers slaves : List ServerMonitor) :
    Except RunError (List ServerMonitor × ServerMonitor) :=
  match slaves with
  | [] => .error (.panic "runtime error: index out of range")
  | sl0 :: _ =>
    match scanFailed sl0.MasterHost servers with
    | some r => .ok r
    | none => .error (.fatal "ERROR: Could not autodetect a master!")

/-- The strategy selection of the master locator (repmgr.go line 149):
the switchover / monitor-failover path when the switchover mode is set or
the failover mode is `monitor`, the forced-failover path otherwise. -/
def locateMaster (switchoverMode failoverMode : String)
    (servers slaves : List ServerMonitor) :
    Except RunError (List ServerMonitor × ServerMonitor) :=
  if switchoverMode ≠ "" ∨ failoverMode = "monitor" then
    masterLocatorSwitchover servers slaves
  else
    masterLocatorForce servers slaves

/-- The `ret` closure of repmgr.go (lines 195-202): whether the preferred
master appears in the host list. -/
def prefMasterInHosts (hostList : List String) (prefMaster : String) : Bool :=
  hostList.any (fun v => v == prefMaster)

/-- The preferred-master validation of repmgr.go (lines 194-205): fatal
when the preferred master is non-empty and absent from the host list. -/
def prefMasterCheck (hostList : List String) (prefMaster : String) :
    Except RunError Unit :=
  if prefMasterInHosts hostList prefMaster = false ∧ prefMaster ≠ "" then
    .error (.fatal "ERROR: Preferred master is not included in the hosts option")
  else
    .ok ()

/-- The run configuration consumed by the phases modelled here (a subset of
the flags of repmgr.go, immutable after flag validation). -/
structure Config where
  hostList : List String
  switchover : String
  failover : String
  prefMaster : String
  interactive : Bool
deriving DecidableEq, Repr

/-- Observable events of the startup sequence of `main`, used to state in
which order the phases run and with which outcome the run ends. -/
inductive StartupEvent where
  | connectAttempt (url : String)
  | masterLocated (url : String)
  | prefMasterChecked
  | abort (e : RunError)
  | proceed
deriving DecidableEq, Repr

/-- The startup sequence of `main` after flag validation (repmgr.go lines
105-205), as an event trace: the classification loop attempts a connection
to every host in host-list order (even after earlier failures), then the
multi-master check runs, then the master locator, and only then the
preferred-master validation. The per-slave `IsSlaveof` pass (lines 185-192)
only logs warnings and is omitted. An abort event ends the trace. -/
def startupEvents (hs : ServerMonitor → List ServerMonitor → Bool)
    (cfg : Config) (probes : List ProbeResult) : List StartupEvent :=
  let conn := probes.map (fun p => StartupEvent.connectAttempt p.url)
  let servers := (classify probes).1
  let slaves := (classify probes).2
  conn ++
    match checkSiblings hs slaves slaves with
    | .error e => [.abort e]
    | .ok _ =>
      match locateMaster cfg.switchover cfg.failover servers slaves with
      | .error e => [.abort e]
      | .ok (_, m) =>
        .masterLocated m.URL ::
          match prefMasterCheck cfg.hostList cfg.prefMaster with
          | .error e => [.prefMasterChecked, .abort e]
          | .ok _ => [.prefMasterChecked, .proceed]

/-- What `main` does once the master is located and validated
(repmgr.go lines 207-227). -/
inductive Action where
  | directFailover
  | directSwitchover
  | monitorLoop (startLog : String)
deriving DecidableEq, Repr

/-- The branch selection of repmgr.go (lines 209-224): `failover == "force"`
runs an immediate failover; a set switchover mode with the interactive flag
off runs an immediate switchover; everything else enters the monitoring
loop, whose first log line depends only on whether a failover mode is set. -/
def postLocateAction (cfg : Config) : Action :=
  if cfg.failover = "force" then
    .directFailover
  else if cfg.switchover ≠ "" ∧ cfg.interactive = false then
    .directSwitchover
  else
    .monitorLoop
      (if cfg.failover ≠ "" then "Monitor started in failover mode"
       else "Monitor started in switchover mode")

/-- The mutable state of the monitoring loop of repmgr.go: the `master`
reference, the `slaves` slice, the `exit` flag and the pending `command`
token (`""` for none). -/
structure LoopState where
  master : ServerMonitor
  slaves : List ServerMonitor
  exitFlag : Bool
  command : String
deriving DecidableEq, Repr

/-- The keys the loop reacts to (repmgr.go lines 236-252); `otherKey` stands
for any other key event, which the loop ignores. -/
inductive Key where
  | ctrlS
  | ctrlF
  | ctrlQ
  | otherKey
deriving DecidableEq, Repr

/-- One event consumed by the `select` of the monitoring loop: a ticker
tick, a key event, or the `s` character event that only resyncs the
display. -/
inductive LoopEvent where
  | tick
  | key (k : Key)
  | chSync
deriving DecidableEq, Repr

/-- Modelled from the spec: the external calls the loop body makes, as an
environment. `connect` is `newServerMonitor` (spec: "the engine
re-establishes Node Monitor connections"); `switchoverResult` and
`failoverResult` are the `(newMasterIdentity, promotedSlaveIndex) | empty`
results of the promotion operations (spec section 6), with the empty result
encoded as an empty URL, as the code tests it. -/
structure LoopEnv where
  connect : String → ServerMonitor
  switchoverResult : String × Int
  failoverResult : String × Int

/-- The `select` body of the monitoring loop (repmgr.go lines 230-258).
A tick only renders the display; Ctrl-S runs a switchover and, when it
returns a non-empty URL and a key `>= 0`, replaces the master reference and
the slave slot at that key with freshly connected monitors (reading
`slaves[nsKey]` panics when the key is not below the slave count); Ctrl-F
records the pending failover command and sets the exit flag; Ctrl-Q sets
the exit flag; the `s` character only calls `termbox.Sync`. -/
def handleEvent (env : LoopEnv) (ev : LoopEvent) (st : LoopState) :
    Except String LoopState :=
  match ev with
  | .tick => .ok st
  | .chSync => .ok st
  | .key k =>
    match k with
    | .ctrlS =>
      let nmUrl := env.switchoverResult.1
      let nsKey := env.switchoverResult.2
      if nmUrl ≠ "" ∧ 0 ≤ nsKey then
        match st.slaves[nsKey.toNat]? with
        | some oldSlave =>
          .ok { st with master := env.connect nmUrl,
                        slaves := st.slaves.set nsKey.toNat (env.connect oldSlave.URL) }
        | none => .error "runtime error: index out of range"
      else
        .ok st
    | .ctrlF => .ok { st with command := "failover", exitFlag := true }
    | .ctrlQ => .ok { st with exitFlag := true }
    | .otherKey => .ok st

/-- The automatic failure detection at the end of every loop iteration
(repmgr.go lines 259-262): when the master's state is `Failed` and the
interactive flag is off, record the pending failover command and set the
exit flag. -/
def autoFailoverCheck (interactive : Bool) (st : LoopState) : LoopState :=
  if st.master.State = STATE_FAILED ∧ interactive = false then
    { st with command := "failover", exitFlag := true }
  else
    st

/-- One full iteration of the monitoring loop: the `select` body followed by
the automatic failure detection. -/
def loopStep (env : LoopEnv) (interactive : Bool) (ev : LoopEvent)
    (st : LoopState) : Except String LoopState :=
  (handleEvent env ev st).map (autoFailoverCheck interactive)

/-- How the monitoring loop ends (repmgr.go lines 264-282): the process
terminates, or the monitor restarts (`goto MainLoop`) with a new state. -/
inductive LoopOutcome where
  | terminate
  | restart (st : LoopState)
deriving DecidableEq, Repr

/-- The failover exit path (repmgr.go lines 266-279): `master.failover()`
is invoked; when the returned URL is non-empty the master reference is
replaced with a fresh monitor and the slave at the returned key is removed
by `append(slaves[:nmKey], slaves[nmKey+1:]...)` — Go slicing panics unless
`0 <= nmKey` and `nmKey+1 <= len(slaves)`; in all non-panicking cases the
run then waits five seconds (real time, not modelled), clears the exit
flag, and jumps back to `MainLoop`, where `command` is freshly declared
empty. -/
def exitFailover (env : LoopEnv) (st : LoopState) : Except String LoopState :=
  let nmUrl := env.failoverResult.1
  let nmKey := env.failoverResult.2
  if nmUrl ≠ "" then
    if 0 ≤ nmKey ∧ nmKey + 1 ≤ (st.slaves.length : Int) then
      .ok { master := env.connect nmUrl,
            slaves := st.slaves.take nmKey.toNat ++ st.slaves.drop (nmKey.toNat + 1),
            exitFlag := false, command := "" }
    else
      .error "runtime error: slice bounds out of range"
  else
    .ok { st with exitFlag := false, command := "" }

/-- The dispatch after the loop exits (repmgr.go lines 264-282): with the
pending command `"failover"` the failover exit path runs and the monitor
restarts; with no pending command the process terminates. -/
def afterLoop (env : LoopEnv) (st : LoopState) : Except String LoopOutcome :=
  if st.command = "failover" then
    (exitFailover env st).map .restart
  else
    .ok .terminate

/-- The state produced by a successful Ctrl-S switchover (repmgr.go lines
237-244): the master reference and the slave slot at the returned key are
replaced with freshly connected monitors; nothing else changes. -/
def ctrlSUpdate (env : LoopEnv) (st : LoopState)
    (hlt : env.switchoverResult.2.toNat < st.slaves.length) : LoopState :=
  { st with
    master := env.connect env.switchoverResult.1,
    slaves := st.slaves.set env.switchoverResult.2.toNat
      (env.connect (st.slaves.get ⟨env.switchoverResult.2.toNat, hlt⟩).URL) }

/-! ### Concrete sample inputs, used by witnesses and counterexamples -/

/-- A slave monitor whose recorded upstream server id is 7. -/
def smSlave1 : ServerMonitor :=
  { URL := "h1:3306", Host := "h1", IP := "10.0.0.2", Port := "3306",
    State := STATE_SLAVE, ServerId := 2, MasterServerId := 7,
    MasterHost := "10.0.0.1", UsingGtid := "Slave_Pos" }

/-- An unconnected monitor whose own server id is 7. -/
def smUnconn7 : ServerMonitor :=
  { URL := "h0:3306", Host := "h0", IP := "10.0.0.1", Port := "3306",
    State := STATE_UNCONN, ServerId := 7, MasterServerId := 0,
    MasterHost := "", UsingGtid := "" }

/-- A failed monitor whose IP is the upstream host recorded by `smSlave1`. -/
def smFailed1 : ServerMonitor :=
  { URL := "h0:3306", Host := "h0", IP := "10.0.0.1", Port := "3306",
    State := STATE_FAILED, ServerId := 0, MasterServerId := 0,
    MasterHost := "", UsingGtid := "" }

/-- A slave monitor recording upstream server id 1 and upstream host `h1`. -/
def smSlaveX : ServerMonitor :=
  { URL := "s:3306", Host := "s", IP := "10.0.0.3", Port := "3306",
    State := STATE_SLAVE, ServerId := 3, MasterServerId := 1,
    MasterHost := "h1", UsingGtid := "Slave_Pos" }

/-- An unconnected monitor with server id 1 on host `h2`. -/
def smUnconnX : ServerMonitor :=
  { URL := "h2:3306", Host := "h2", IP := "10.0.0.4", Port := "3306",
    State := STATE_UNCONN, ServerId := 1, MasterServerId := 0,
    MasterHost := "", UsingGtid := "" }

/-- A trivial connection oracle: a fresh unconnected monitor for the URL. -/
def connOracle (url : String) : ServerMonitor :=
  { URL := url, Host := url, IP := "", Port := "",
    State := STATE_UNCONN, ServerId := 0, MasterServerId := 0,
    MasterHost := "", UsingGtid := "" }

/-- Loop environment whose failover call promotes slave 0 to `h2:3306`. -/
def envAuto : LoopEnv :=
  { connect := connOracle, switchoverResult := ("", -1),
    failoverResult := ("h2:3306", 0) }

/-- Loop state with a failed master and one slave. -/
def stAuto : LoopState :=
  { master := smFailed1, slaves := [smSlave1], exitFlag := false, command := "" }

/-- Loop environment whose switchover call promotes slave 0 to `h9:3306`. -/
def envSwitch : LoopEnv :=
  { connect := connOracle, switchoverResult := ("h9:3306", 0),
    failoverResult := ("", -1) }

/-- Loop state with a healthy unconnected master and one slave. -/
def stSwitch : LoopState :=
  { master := smUnconn7, slaves := [smSlave1], exitFlag := false, command := "" }

/-- Loop environment whose switchover call returns the empty result. -/
def envSwitchEmpty : LoopEnv :=
  { connect := connOracle, switchoverResult := ("", -1),
    failoverResult := ("", -1) }

/-- Loop environment whose failover call reports a non-empty URL with the
out-of-range slave key 5, and whose switchover call reports a non-empty URL
with the negative key -1. -/
def envBadKey : LoopEnv :=
  { connect := connOracle, switchoverResult := ("h9:3306", -1),
    failoverResult := ("h9:3306", 5) }

/-- Loop state with an empty slave subset and a pending failover command. -/
def stEmptySlaves : LoopState :=
  { master := smFailed1, slaves := [], exitFlag := true, command := "failover" }

/-- Probe of a connected slave recording upstream server id 1. -/
def probeSlaveA : ProbeResult :=
  { url := "a:3306", host := "a", ip := "10.0.0.11", port := "3306",
    conn := true, serverId := 11, masterServerId := 1, masterHost := "m",
    usingGtid := "Slave_Pos" }

/-- Probe of a connected slave recording upstream server id 2, disagreeing
with `probeSlaveA`. -/
def probeSlaveB : ProbeResult :=
  { url := "b:3306", host := "b", ip := "10.0.0.12", port := "3306",
    conn := true, serverId := 12, masterServerId := 2, masterHost := "n",
    usingGtid := "Slave_Pos" }

/-- A monitor-failover configuration with no preferred master. -/
def cfgDefault : Config :=
  { hostList := ["a:3306", "b:3306"], switchover := "", failover := "monitor",
    prefMaster := "", interactive := true }

/-- A switchover configuration whose preferred master `d:3306` is absent
from the host list. -/
def cfgPref : Config :=
  { hostList := ["a:3306", "b:3306", "c:3306"], switchover := "keep",
    failover := "", prefMaster := "d:3306", interactive := true }

/-- Probe of a connected slave of server id 7 (host `a`). -/
def probeA6 : ProbeResult :=
  { url := "a:3306", host := "a", ip := "10.0.0.21", port := "3306",
    conn := true, serverId := 21, masterServerId := 7, masterHost := "b",
    usingGtid := "Slave_Pos" }

/-- Probe of a connected non-replicating host `b` whose server id is 7. -/
def probeB6 : ProbeResult :=
  { url := "b:3306", host := "b", ip := "10.0.0.22", port := "3306",
    conn := true, serverId := 7, masterServerId := 0, masterHost := "",
    usingGtid := "" }

/-- Probe of host `c`, whose connection fails. -/
def probeC6 : ProbeResult :=
  { url := "c:3306", host := "c", ip := "10.0.0.23", port := "3306",
    conn := false, serverId := 0, masterServerId := 0, masterHost := "",
    usingGtid := "" }

/-- A configuration with every textual field empty, non-interactive. -/
def cfgBlank : Config :=
  { hostList := [], switchover := "", failover := "", prefMaster := "",
    interactive := false }

/-! ### Helper lemmas -/

theorem scanUnconn_first (sid : Nat) (pre post : List ServerMonitor)
    (s : ServerMonitor)
    (hpre : ∀ t ∈ pre, ¬(t.State = STATE_UNCONN ∧ t.ServerId = sid))
    (hs : s.State = STATE_UNCONN) (hsid : s.ServerId = sid) :
    scanUnconn sid (pre ++ s :: post) =
      some (pre ++ { s with State := STATE_MASTER } :: post,
            { s with State := STATE_MASTER }) := by
  induction pre with
  | nil => simp [scanUnconn, hs, hsid]
  | cons t pre ih =>
    have ht : ¬(t.State = STATE_UNCONN ∧ t.ServerId = sid) := hpre t (by simp)
    have ih' := ih fun u hu => hpre u (by simp [hu])
    simp [scanUnconn, ht, ih']

theorem scanUnconn_notfound (sid : Nat) :
    ∀ l : List ServerMonitor,
      (∀ t ∈ l, ¬(t.State = STATE_UNCONN ∧ t.ServerId = sid)) →
      scanUnconn sid l = none := by
  intro l
  induction l with
  | nil => intro _; rfl
  | cons t rest ih =>
    intro h
    simp [scanUnconn, h t (by simp), ih fun u hu => h u (by simp [hu])]

theorem scanFailed_first (smh : String) (pre post : List ServerMonitor)
    (s : ServerMonitor)
    (hpre : ∀ t ∈ pre, ¬(t.State = STATE_FAILED ∧ (t.Host = smh ∨ t.IP = smh)))
    (hs : s.State = STATE_FAILED) (hloc : s.Host = smh ∨ s.IP = smh) :
    scanFailed smh (pre ++ s :: post) =
      some (pre ++ { s with State := STATE_MASTER } :: post,
            { s with State := STATE_MASTER }) := by
  induction pre with
  | nil => simp [scanFailed, hs, hloc]
  | cons t pre ih =>
    have ht : ¬(t.State = STATE_FAILED ∧ (t.Host = smh ∨ t.IP = smh)) :=
      hpre t (by simp)
    have ih' := ih fun u hu => hpre u (by simp [hu])
    simp [scanFailed, ht, ih']

theorem scanFailed_notfound (smh : String) :
    ∀ l : List ServerMonitor,
      (∀ t ∈ l, ¬(t.State = STATE_FAILED ∧ (t.Host = smh ∨ t.IP = smh))) →
      scanFailed smh l = none := by
  intro l
  induction l with
  | nil => intro _; rfl
  | cons t rest ih =>
    intro h
    simp [scanFailed, h t (by simp), ih fun u hu => h u (by simp [hu])]

theorem checkSiblings_fatal (hs : ServerMonitor → List ServerMonitor → Bool)
    (slaves : List ServerMonitor) :
    ∀ l : List ServerMonitor,
      (∃ sl ∈ l, hs sl slaves = false) →
      checkSiblings hs slaves l =
        .error (.fatal "ERROR: Multi-master topologies are not yet supported.") := by
  intro l
  induction l with
  | nil => rintro ⟨sl, hmem, _⟩; simp at hmem
  | cons t rest ih =>
    rintro ⟨sl, hmem, hf⟩
    by_cases htf : hs t slaves = false
    · simp [checkSiblings, htf]
    · rcases List.mem_cons.mp hmem with rfl | hmem'
      · exact absurd hf htf
      · simp [checkSiblings, htf, ih ⟨sl, hmem', hf⟩]

theorem checkSiblings_passes (hs : ServerMonitor → List ServerMonitor → Bool)
    (slaves : List ServerMonitor) :
    ∀ l : List ServerMonitor,
      (∀ sl ∈ l, hs sl slaves = true) →
      checkSiblings hs slaves l = .ok () := by
  intro l
  induction l with
  | nil => intro _; rfl
  | cons t rest ih =>
    intro h
    have ht : ¬(hs t slaves = false) := by simp [h t (by simp)]
    simp [checkSiblings, ht, ih fun u hu => h u (by simp [hu])]

theorem classify_fst (l : List ProbeResult) :
    (classify l).1 = l.map classifyOne := by
  induction l with
  | nil => rfl
  | cons p rest ih => simp [classify, ih]

theorem classify_snd (l : List ProbeResult) :
    (classify l).2 =
      (l.map classifyOne).filter (fun s => s.State == STATE_SLAVE) := by
  induction l with
  | nil => rfl
  | cons p rest ih =>
    by_cases h : (classifyOne p).State = STATE_SLAVE
    · simp [classify, ih, List.filter_cons, h]
    · simp [classify, ih, List.filter_cons, h]

/-! ### Claim theorems -/

/-- C1: In switchover mode or monitor-failover mode, the master locator
takes the `MasterServerId` recorded by the first slave (host-list order) as
the expected master identity; the first server in `Unconnected` state (in
host-list order) whose own `ServerId` equals it becomes the master, its
state set to `Master`; when no unconnected server matches, the run aborts
fatally with the could-not-autodetect-a-master diagnostic. -/
theorem C1_switchover_locator :
    (∀ (sl0 : ServerMonitor) (slrest pre post : List ServerMonitor)
       (s : ServerMonitor),
      (∀ t ∈ pre, ¬(t.State = STATE_UNCONN ∧ t.ServerId = sl0.MasterServerId)) →
      s.State = STATE_UNCONN → s.ServerId = sl0.MasterServerId →
      masterLocatorSwitchover (pre ++ s :: post) (sl0 :: slrest) =
        .ok (pre ++ { s with State := STATE_MASTER } :: post,
             { s with State := STATE_MASTER })) ∧
    (∀ (sl0 : ServerMonitor) (slrest servers : List ServerMonitor),
      (∀ t ∈ servers,
          ¬(t.State = STATE_UNCONN ∧ t.ServerId = sl0.MasterServerId)) →
      masterLocatorSwitchover servers (sl0 :: slrest) =
        .error (.fatal "ERROR: Could not autodetect a master!")) := by
  constructor
  · intro sl0 slrest pre post s hpre hs hsid
    simp [masterLocatorSwitchover,
      scanUnconn_first sl0.MasterServerId pre post s hpre hs hsid]
  · intro sl0 slrest servers hnone
    simp [masterLocatorSwitchover,
      scanUnconn_notfound sl0.MasterServerId servers hnone]

/-- Witness for C1: with one slave recording upstream server id 7 and one
unconnected server of id 7, that server is designated master. -/
theorem C1_witness :
    masterLocatorSwitchover [smUnconn7] [smSlave1] =
      .ok ([{ smUnconn7 with State := STATE_MASTER }],
           { smUnconn7 with State := STATE_MASTER }) :=
  C1_switchover_locator.1 smSlave1 [] [] [] smUnconn7 (by simp) rfl rfl

/-- C2: In forced-failover mode, the master locator takes the `MasterHost`
recorded by the first slave as the expected master location; the first
server in `Failed` state (in host-list order) whose `Host` or `IP` equals
it becomes the master; when no failed server matches, the run aborts
fatally. -/
theorem C2_force_locator :
    (∀ (sl0 : ServerMonitor) (slrest pre post : List ServerMonitor)
       (s : ServerMonitor),
      (∀ t ∈ pre,
          ¬(t.State = STATE_FAILED ∧
            (t.Host = sl0.MasterHost ∨ t.IP = sl0.MasterHost))) →
      s.State = STATE_FAILED →
      (s.Host = sl0.MasterHost ∨ s.IP = sl0.MasterHost) →
      masterLocatorForce (pre ++ s :: post) (sl0 :: slrest) =
        .ok (pre ++ { s with State := STATE_MASTER } :: post,
             { s with State := STATE_MASTER })) ∧
    (∀ (sl0 : ServerMonitor) (slrest servers : List ServerMonitor),
      (∀ t ∈ servers,
          ¬(t.State = STATE_FAILED ∧
            (t.Host = sl0.MasterHost ∨ t.IP = sl0.MasterHost))) →
      masterLocatorForce servers (sl0 :: slrest) =
        .error (.fatal "ERROR: Could not autodetect a master!")) := by
  constructor
  · intro sl0 slrest pre post s hpre hs hloc
    simp [masterLocatorForce,
      scanFailed_first sl0.MasterHost pre post s hpre hs hloc]
  · intro sl0 slrest servers hnone
    simp [masterLocatorForce,
      scanFailed_notfound sl0.MasterHost servers hnone]

/-- Witness for C2: with one slave recording upstream host `10.0.0.1` and
one failed server whose IP is `10.0.0.1`, that server is designated
master. -/
theorem C2_witness :
    masterLocatorForce [smFailed1] [smSlave1] =
      .ok ([{ smFailed1 with State := STATE_MASTER }],
           { smFailed1 with State := STATE_MASTER }) :=
  C2_force_locator.1 smSlave1 [] [] [] smFailed1 (by simp) rfl (Or.inr rfl)

/-- C8: With an empty slave subset, both master-locator paths read
`slaves[0]` and the run ends in a Go index-out-of-range panic, which is a
different outcome from the controlled could-not-autodetect-a-master fatal
diagnostic. -/
theorem C8_empty_slave_subset (servers : List ServerMonitor) :
    masterLocatorSwitchover servers [] =
      .error (.panic "runtime error: index out of range") ∧
    masterLocatorForce servers [] =
      .error (.panic "runtime error: index out of range") ∧
    (∀ pmsg fmsg : String, RunError.panic pmsg ≠ RunError.fatal fmsg) :=
  ⟨rfl, rfl, fun _ _ h => RunError.noConfusion h⟩

/-- C7: Classification yields one server per probed host, each in exactly
the state its probe dictates (`Failed` on connection failure, `Slave` when
replication is configured, `Unconnected` otherwise), and the slave subset
is exactly the servers in `Slave` state, in host-list order. -/
theorem C7_classifier (probes : List ProbeResult) :
    (classify probes).1.length = probes.length ∧
    (classify probes).1 = probes.map classifyOne ∧
    (∀ p : ProbeResult, (classifyOne p).State =
      if p.conn = false then STATE_FAILED
      else if p.usingGtid ≠ "" then STATE_SLAVE
      else STATE_UNCONN) ∧
    (∀ s ∈ (classify probes).1,
      s.State = STATE_FAILED ∨ s.State = STATE_SLAVE ∨ s.State = STATE_UNCONN) ∧
    (classify probes).2 =
      (classify probes).1.filter (fun s => s.State == STATE_SLAVE) := by
  have hstate : ∀ p : ProbeResult, (classifyOne p).State =
      if p.conn = false then STATE_FAILED
      else if p.usingGtid ≠ "" then STATE_SLAVE
      else STATE_UNCONN := by
    intro p
    unfold classifyOne
    by_cases hc : p.conn = false
    · simp [hc]
    · by_cases hg : p.usingGtid ≠ ""
      · simp [hc, hg]
      · simp [hc, hg]
  refine ⟨?_, classify_fst probes, hstate, ?_, ?_⟩
  · rw [classify_fst]; simp
  · intro s hmem
    rw [classify_fst] at hmem
    rcases List.mem_map.mp hmem with ⟨p, _, rfl⟩
    rw [hstate p]
    split
    · exact Or.inl rfl
    · split
      · exact Or.inr (Or.inl rfl)
      · exact Or.inr (Or.inr rfl)
  · rw [classify_snd, classify_fst]

/-- C4: When some slave disagrees with the slave set on upstream identity
(`hasSiblings` false), the startup sequence aborts with the multi-master
fatal diagnostic right after the classification connect attempts, never
reaching the master locator; when all slaves agree, the multi-master check
passes. -/
theorem C4_multi_master :
    (∀ (hs : ServerMonitor → List ServerMonitor → Bool) (cfg : Config)
       (probes : List ProbeResult),
      (∃ sl ∈ (classify probes).2, hs sl (classify probes).2 = false) →
      startupEvents hs cfg probes =
        probes.map (fun p => StartupEvent.connectAttempt p.url) ++
          [.abort (.fatal "ERROR: Multi-master topologies are not yet supported.")]) ∧
    (∀ (hs : ServerMonitor → List ServerMonitor → Bool)
       (slaves : List ServerMonitor),
      (∀ sl ∈ slaves, hs sl slaves = true) →
      checkSiblings hs slaves slaves = .ok ()) := by
  constructor
  · intro hs cfg probes hex
    have herr := checkSiblings_fatal hs (classify probes).2 (classify probes).2 hex
    simp [startupEvents, herr]
  · intro hs slaves h
    exact checkSiblings_passes hs slaves slaves h

/-- Witness for C4: two connected slaves recording upstream ids 1 and 2
abort the startup with the multi-master diagnostic; a singleton slave set
agreeing with itself passes the check. -/
theorem C4_witness :
    startupEvents hasSiblings cfgDefault [probeSlaveA, probeSlaveB] =
      [.connectAttempt "a:3306", .connectAttempt "b:3306",
       .abort (.fatal "ERROR: Multi-master topologies are not yet supported.")] ∧
    checkSiblings hasSiblings [smSlave1] [smSlave1] = .ok () :=
  ⟨C4_multi_master.1 hasSiblings cfgDefault [probeSlaveA, probeSlaveB] (by decide),
   C4_multi_master.2 hasSiblings [smSlave1] (by decide)⟩

/-- C3: On any loop iteration, when the interactive flag is off and the
master's state (after event processing) is `Failed`, the iteration records
the pending command `"failover"` and sets the exit flag; and when the loop
exits with pending `"failover"`, the failover result with a non-empty URL
and an in-range slave key replaces the master reference, removes the
promoted slave from the slave subset, clears the exit flag, and restarts
the monitor instead of terminating. -/
theorem C3_failover_restart :
    (∀ (env : LoopEnv) (ev : LoopEvent) (st st1 : LoopState),
      handleEvent env ev st = .ok st1 →
      st1.master.State = STATE_FAILED →
      loopStep env false ev st =
        .ok { st1 with command := "failover", exitFlag := true }) ∧
    (∀ (env : LoopEnv) (st : LoopState),
      st.command = "failover" →
      env.failoverResult.1 ≠ "" →
      0 ≤ env.failoverResult.2 →
      env.failoverResult.2 + 1 ≤ (st.slaves.length : Int) →
      afterLoop env st = .ok (.restart
        { master := env.connect env.failoverResult.1,
          slaves := st.slaves.take env.failoverResult.2.toNat ++
                    st.slaves.drop (env.failoverResult.2.toNat + 1),
          exitFlag := false, command := "" })) := by
  constructor
  · intro env ev st st1 hev hfail
    simp [loopStep, hev, Except.map, autoFailoverCheck, hfail]
  · intro env st hcmd hurl hk0 hkle
    simp [afterLoop, hcmd, exitFailover, hurl, hk0, hkle, Except.map]

/-- Witness for C3: a failed master with the interactive flag off makes a
tick iteration record the failover command and set the exit flag, and the
exit dispatch restarts the monitor with slave 0 promoted away and the exit
flag cleared. -/
theorem C3_witness :
    loopStep envAuto false .tick stAuto =
      .ok { stAuto with command := "failover", exitFlag := true } ∧
    afterLoop envAuto { stAuto with command := "failover", exitFlag := true } =
      .ok (.restart { master := envAuto.connect "h2:3306", slaves := [],
                      exitFlag := false, command := "" }) :=
  ⟨C3_failover_restart.1 envAuto .tick stAuto stAuto rfl rfl,
   C3_failover_restart.2 envAuto
     { stAuto with command := "failover", exitFlag := true }
     rfl (by decide) (by decide) (by decide)⟩

/-- C5: When the Ctrl-S manual switchover event is processed and the
switchover call returns a non-empty URL and a key that is at least zero and
within the slave list, exactly the master reference and the slave slot at
that key are replaced: every other slave slot, the slave-subset length, the
exit flag and the pending command are unchanged; when the call returns an
empty URL or a negative key, the state is not mutated at all. In both cases
the event processing leaves the exit flag unset, so the loop continues. -/
theorem C5_manual_switchover (env : LoopEnv) (st : LoopState) :
    (∀ (_hu : env.switchoverResult.1 ≠ "") (_hk : 0 ≤ env.switchoverResult.2)
       (hlt : env.switchoverResult.2.toNat < st.slaves.length),
      handleEvent env (.key .ctrlS) st = .ok (ctrlSUpdate env st hlt) ∧
      (ctrlSUpdate env st hlt).master = env.connect env.switchoverResult.1 ∧
      (ctrlSUpdate env st hlt).slaves.length = st.slaves.length ∧
      (ctrlSUpdate env st hlt).slaves[env.switchoverResult.2.toNat]? =
        some (env.connect
          (st.slaves.get ⟨env.switchoverResult.2.toNat, hlt⟩).URL) ∧
      (∀ j, j ≠ env.switchoverResult.2.toNat →
        (ctrlSUpdate env st hlt).slaves[j]? = st.slaves[j]?) ∧
      (ctrlSUpdate env st hlt).exitFlag = st.exitFlag ∧
      (ctrlSUpdate env st hlt).command = st.command) ∧
    ((env.switchoverResult.1 = "" ∨ env.switchoverResult.2 < 0) →
      handleEvent env (.key .ctrlS) st = .ok st) := by
  constructor
  · intro hu hk hlt
    have hget : st.slaves[env.switchoverResult.2.toNat]? =
        some (st.slaves.get ⟨env.switchoverResult.2.toNat, hlt⟩) := by
      rw [List.getElem?_eq_getElem hlt]
      rfl
    refine ⟨?_, rfl, by simp [ctrlSUpdate], ?_, ?_, rfl, rfl⟩
    · simp [handleEvent, hu, hk, hget, ctrlSUpdate]
    · simp [ctrlSUpdate, List.getElem?_set_self', List.getElem?_eq_getElem hlt]
    · intro j hj
      simp [ctrlSUpdate, List.getElem?_set_ne (fun h => hj h.symm)]
  · intro hor
    have hcond : ¬(env.switchoverResult.1 ≠ "" ∧ 0 ≤ env.switchoverResult.2) := by
      rcases hor with h | h
      · rintro ⟨hne, _⟩; exact hne h
      · rintro ⟨_, hk⟩; omega
    simp [handleEvent, hcond]

/-- Witness for C5: a switchover returning `h9:3306` and key 0 replaces the
master and slave slot 0 only; an empty switchover result leaves the state
untouched. -/
theorem C5_witness :
    handleEvent envSwitch (.key .ctrlS) stSwitch =
      .ok { stSwitch with master := envSwitch.connect "h9:3306",
                          slaves := [envSwitch.connect "h1:3306"] } ∧
    handleEvent envSwitchEmpty (.key .ctrlS) stSwitch = .ok stSwitch := by
  have hlt : envSwitch.switchoverResult.2.toNat < stSwitch.slaves.length := by
    decide
  exact ⟨((C5_manual_switchover envSwitch stSwitch).1 (by decide) (by decide)
            hlt).1,
         (C5_manual_switchover envSwitchEmpty stSwitch).2 (Or.inl rfl)⟩

/-- C9: On the automatic-failover exit path, a non-empty returned URL with
a slave key outside the bounds accepted by Go slicing (`0 <= key` and
`key+1 <= len`) makes the slice removal panic — the key is never validated;
the manual switchover path, by contrast, refuses to mutate state when the
returned key is negative. -/
theorem C9_failover_index_unchecked (env : LoopEnv) (st : LoopState)
    (hurl : env.failoverResult.1 ≠ "") :
    (¬(0 ≤ env.failoverResult.2 ∧
        env.failoverResult.2 + 1 ≤ (st.slaves.length : Int)) →
      exitFailover env st = .error "runtime error: slice bounds out of range") ∧
    (env.switchoverResult.2 < 0 →
      handleEvent env (.key .ctrlS) st = .ok st) := by
  constructor
  · intro hb
    simp [exitFailover, hurl, hb]
  · intro hneg
    have hcond : ¬(env.switchoverResult.1 ≠ "" ∧ 0 ≤ env.switchoverResult.2) := by
      rintro ⟨_, hk⟩; omega
    simp [handleEvent, hcond]

/-- Witness for C9: a failover result of `h9:3306` with key 5 against an
empty slave list panics on the exit path, while a switchover result with
key -1 leaves the state unmutated on the manual path. -/
theorem C9_witness :
    exitFailover envBadKey stEmptySlaves =
      .error "runtime error: slice bounds out of range" ∧
    handleEvent envBadKey (.key .ctrlS) stEmptySlaves = .ok stEmptySlaves :=
  ⟨(C9_failover_index_unchecked envBadKey stEmptySlaves (by decide)).1 (by decide),
   (C9_failover_index_unchecked envBadKey stEmptySlaves (by decide)).2 (by decide)⟩

/-- Counterexample to C6 as stated: with preferred master `d:3306` absent
from the host list, the startup trace shows a connection attempt to every
host (and the master being located) before the preferred-master fatal
diagnostic — the check is not performed before connection attempts. -/
theorem C6_counterexample :
    startupEvents hasSiblings cfgPref [probeA6, probeB6, probeC6] =
      [.connectAttempt "a:3306", .connectAttempt "b:3306",
       .connectAttempt "c:3306", .masterLocated "b:3306", .prefMasterChecked,
       .abort (.fatal "ERROR: Preferred master is not included in the hosts option")] := by
  decide

/-- C6 (amended): the preferred-master validation fails fatally exactly
when a non-empty preferred master is configured that is absent from the
host list; however it runs only after the classification phase, whose
connection attempts to every host open every startup trace. -/
theorem C6_pref_check_amended :
    (∀ (hostList : List String) (pref : String),
      prefMasterCheck hostList pref =
        .error (.fatal "ERROR: Preferred master is not included in the hosts option")
        ↔ (pref ≠ "" ∧ pref ∉ hostList)) ∧
    (∀ (hs : ServerMonitor → List ServerMonitor → Bool) (cfg : Config)
       (probes : List ProbeResult),
      (startupEvents hs cfg probes).take probes.length =
        probes.map (fun p => StartupEvent.connectAttempt p.url)) := by
  constructor
  · intro hostList pref
    have hiff : prefMasterInHosts hostList pref = true ↔ pref ∈ hostList := by
      simp [prefMasterInHosts]
    constructor
    · intro h
      by_cases hcond : (prefMasterInHosts hostList pref = false ∧ pref ≠ "")
      · refine ⟨hcond.2, fun hmem => ?_⟩
        have htrue := hiff.mpr hmem
        rw [htrue] at hcond
        exact Bool.noConfusion hcond.1
      · rw [prefMasterCheck, if_neg hcond] at h
        exact Except.noConfusion h
    · rintro ⟨hne, hmem⟩
      have hfalse : prefMasterInHosts hostList pref = false := by
        cases hb : prefMasterInHosts hostList pref
        · rfl
        · exact absurd (hiff.mp hb) hmem
      rw [prefMasterCheck, if_pos ⟨hfalse, hne⟩]
  · intro hs cfg probes
    have hlen : probes.length =
        (probes.map (fun p => StartupEvent.connectAttempt p.url)).length := by
      simp
    rw [startupEvents, hlen, List.take_left]

/-- Counterexample to C10 as stated: on the same classified topology (one
slave recording upstream id 1 and host `h1`, one unconnected server of id 1
on `h2`), failover mode `monitor` locates a master while mode `check`
aborts fatally — the master locator consults the distinction between the
two sub-mode values, so they are not behaviorally identical. -/
theorem C10_counterexample :
    locateMaster "" "monitor" [smSlaveX, smUnconnX] [smSlaveX] =
      .ok ([smSlaveX, { smUnconnX with State := STATE_MASTER }],
           { smUnconnX with State := STATE_MASTER }) ∧
    locateMaster "" "check" [smSlaveX, smUnconnX] [smSlaveX] =
      .error (.fatal "ERROR: Could not autodetect a master!") :=
  ⟨rfl, rfl⟩

/-- C10 (amended): in the branch selection after the master is located,
failover modes `monitor` and `check` behave identically — with no
switchover mode set, both bypass the direct force-failover and direct
switchover branches, enter the monitoring loop, and log the same startup
line; but the master locator does consult the distinction: mode `monitor`
uses the unconnected-scan path while mode `check` uses the failed-scan
path. -/
theorem C10_modes_amended (cfg : Config) (hsw : cfg.switchover = "") :
    (postLocateAction { cfg with failover := "monitor" } =
       .monitorLoop "Monitor started in failover mode" ∧
     postLocateAction { cfg with failover := "check" } =
       .monitorLoop "Monitor started in failover mode") ∧
    (∀ servers slaves : List ServerMonitor,
      locateMaster cfg.switchover "monitor" servers slaves =
        masterLocatorSwitchover servers slaves ∧
      locateMaster cfg.switchover "check" servers slaves =
        masterLocatorForce servers slaves) := by
  constructor
  · constructor
    · simp [postLocateAction, hsw]
    · simp [postLocateAction, hsw]
  · intro servers slaves
    rw [hsw]
    constructor
    · simp [locateMaster]
    · simp [locateMaster]

/-- Witness for C10 (amended): both modes select the monitoring loop with
the failover startup line on a blank configuration, and on a concrete
topology the two locator paths are the stated ones. -/
theorem C10_witness :
    postLocateAction { cfgBlank with failover := "monitor" } =
      .monitorLoop "Monitor started in failover mode" ∧
    postLocateAction { cfgBlank with failover := "check" } =
      .monitorLoop "Monitor started in failover mode" ∧
    locateMaster "" "monitor" [smUnconnX] [smSlaveX] =
      masterLocatorSwitchover [smUnconnX] [smSlaveX] ∧
    locateMaster "" "check" [smUnconnX] [smSlaveX] =
      masterLocatorForce [smUnconnX] [smSlaveX] :=
  ⟨(C10_modes_amended cfgBlank rfl).1.1,
   (C10_modes_amended cfgBlank rfl).1.2,
   ((C10_modes_amended cfgBlank rfl).2 [smUnconnX] [smSlaveX]).1,
   ((C10_modes_amended cfgBlank rfl).2 [smUnconnX] [smSlaveX]).2⟩

end Repmgr
